import Mathlib

/-
Verification of the mpsc channel library (include/mpsc/channel.hpp).

The channel is a mutex-protected FIFO queue with a closed flag and a
wakeup-bookkeeping flag. Every public operation acquires the single lock,
so the observable behaviour of each call is the sequential function of the
state it finds under the lock; we embed each member function of
detail::Channel<T> as such a state-transformer. The blocking wait inside
receive (the only suspension point) is represented by an explicit
"blocked" outcome: a sequential run cannot resume it, and no claim below
needs the post-wakeup path of a parked consumer.
-/

namespace Mpsc

/-- The error kinds of the public API: channel_closed_exception (thrown by
Channel::send when the closed flag is set) and the invalid-argument error
thrown by Sender::validate and Receiver::validate on a moved-out handle,
called HandleInvalidated in the design document. -/
inductive ChError where
  | channelClosed
  | handleInvalidated
deriving DecidableEq

/-- State of detail::Channel<T>: the field queue (std::queue over std::list,
front of the queue at the head of the list, push appends at the tail), the
field need_notify, and the field _closed (rendered closed here). The mutex
and condition variable have no state in the sequential embedding. -/
structure Channel (α : Type) where
  queue : List α
  need_notify : Bool
  closed : Bool
deriving DecidableEq

/-- The channel state built by make_channel<T>: default-constructed Channel,
so an empty queue with need_notify = false and _closed = false. -/
def Channel.init {α : Type} : Channel α :=
  { queue := [], need_notify := false, closed := false }

/-- Channel<T>::send (both overloads are identical up to copy/move of the
value): under the lock, throw channel_closed_exception if _closed, else push
the value and clear need_notify if it was set (the notify_one call has no
state effect). A thrown exception leaves the state exactly as found. -/
def Channel.send {α : Type} (v : α) (c : Channel α) :
    Except ChError Unit × Channel α :=
  if c.closed then
    (Except.error ChError.channelClosed, c)
  else
    let c1 : Channel α := { c with queue := c.queue ++ [v] }
    if c1.need_notify then
      (Except.ok (), { c1 with need_notify := false })
    else
      (Except.ok (), c1)

/-- Result of one call to the blocking Channel<T>::receive in the sequential
model: either the call returns an optional value, or it parks on the
condition variable (queue empty and not closed) and cannot be resumed
without another thread. -/
inductive RecvOutcome (α : Type) where
  | ret (v : Option α)
  | blocked
deriving DecidableEq

/-- Channel<T>::receive: under the lock, return nullopt at once if _closed
(even with items still queued); if the queue is empty, set need_notify and
wait on the condition variable (the blocked outcome here); otherwise the
re-check of _closed after the skipped wait still sees false, so pop the
front and return it. -/
def Channel.receive {α : Type} (c : Channel α) :
    RecvOutcome α × Channel α :=
  if c.closed then
    (RecvOutcome.ret none, c)
  else
    match c.queue with
    | [] => (RecvOutcome.blocked, { c with need_notify := true })
    | v :: rest => (RecvOutcome.ret (some v), { c with queue := rest })

/-- Channel<T>::try_receive, the branch in which mutex.try_lock() succeeds
(the contention branch returns nullopt without touching the state and is a
purely concurrent behaviour): nullopt if _closed, nullopt if the queue is
empty, otherwise pop and return the front. -/
def Channel.tryReceive {α : Type} (c : Channel α) :
    Option α × Channel α :=
  if c.closed then
    (none, c)
  else
    match c.queue with
    | [] => (none, c)
    | v :: rest => (some v, { c with queue := rest })

/-- Channel<T>::close: under the lock, set _closed to true and, if
need_notify is set, clear it (and notify the parked consumer). -/
def Channel.close {α : Type} (c : Channel α) : Channel α :=
  let c1 : Channel α := { c with closed := true }
  if c1.need_notify then { c1 with need_notify := false } else c1

/-- Channel<T>::closed: under the lock, return _closed; the state it leaves
behind is recorded so that frame claims can speak about it. -/
def Channel.closedQuery {α : Type} (c : Channel α) : Bool × Channel α :=
  (c.closed, c)

/-- Sender<T>: its only data member is std::shared_ptr<Channel<T>> channel.
In this single-channel model the pointer is represented by whether it is
non-null; the default move constructor and move assignment leave the
moved-from shared_ptr null. -/
structure Sender where
  channel : Bool
deriving DecidableEq

/-- Sender<T>::validate: throw std::invalid_argument (HandleInvalidated)
when the channel pointer is null. -/
def Sender.validate (h : Sender) : Except ChError Unit :=
  if h.channel then Except.ok () else Except.error ChError.handleInvalidated

/-- Sender<T>::send: validate, then forward to Channel::send. The thrown
validation error propagates before the channel state is touched. -/
def Sender.send {α : Type} (h : Sender) (v : α) (c : Channel α) :
    Except ChError Unit × Channel α :=
  match h.validate with
  | Except.error e => (Except.error e, c)
  | Except.ok _ => Channel.send v c

/-- Sender<T>::close: validate, then forward to Channel::close. -/
def Sender.close {α : Type} (h : Sender) (c : Channel α) :
    Except ChError Unit × Channel α :=
  match h.validate with
  | Except.error e => (Except.error e, c)
  | Except.ok _ => (Except.ok (), Channel.close c)

/-- Sender<T>::closed: validate, then forward to Channel::closed. -/
def Sender.closed {α : Type} (h : Sender) (c : Channel α) :
    Except ChError Bool × Channel α :=
  match h.validate with
  | Except.error e => (Except.error e, c)
  | Except.ok _ => (Except.ok (Channel.closedQuery c).1, (Channel.closedQuery c).2)

/-- Sender<T>::operator bool: static_cast<bool>(channel), a total function
that performs no validation. -/
def Sender.toBool (h : Sender) : Bool := h.channel

/-- Moving out of a Sender (the defaulted move constructor or move
assignment): the destination takes the shared_ptr, the source is left with
a null pointer. No Channel member function is invoked. The pair is
(destination, source after the move). -/
def Sender.moveFrom (h : Sender) : Sender × Sender :=
  (⟨h.channel⟩, ⟨false⟩)

/-- A Sender handle is moved-out when its channel pointer is null. -/
def Sender.movedOut (h : Sender) : Prop := h.channel = false

/-- Receiver<T>: its only data member is std::shared_ptr<Channel<T>>
channel, represented by whether the pointer is non-null. -/
structure Receiver where
  channel : Bool
deriving DecidableEq

/-- Receiver<T>::validate: throw std::invalid_argument (HandleInvalidated)
when the channel pointer is null. -/
def Receiver.validate (h : Receiver) : Except ChError Unit :=
  if h.channel then Except.ok () else Except.error ChError.handleInvalidated

/-- Receiver<T>::receive: validate, then forward to Channel::receive. -/
def Receiver.receive {α : Type} (h : Receiver) (c : Channel α) :
    Except ChError (RecvOutcome α) × Channel α :=
  match h.validate with
  | Except.error e => (Except.error e, c)
  | Except.ok _ => ((Channel.receive c).1 |> Except.ok, (Channel.receive c).2)

/-- Receiver<T>::try_receive: validate, then forward to
Channel::try_receive. -/
def Receiver.tryReceive {α : Type} (h : Receiver) (c : Channel α) :
    Except ChError (Option α) × Channel α :=
  match h.validate with
  | Except.error e => (Except.error e, c)
  | Except.ok _ => ((Channel.tryReceive c).1 |> Except.ok, (Channel.tryReceive c).2)

/-- Receiver<T>::closed: validate, then forward to Channel::closed. -/
def Receiver.closed {α : Type} (h : Receiver) (c : Channel α) :
    Except ChError Bool × Channel α :=
  match h.validate with
  | Except.error e => (Except.error e, c)
  | Except.ok _ => (Except.ok (Channel.closedQuery c).1, (Channel.closedQuery c).2)

/-- Receiver<T>::operator bool: static_cast<bool>(channel). -/
def Receiver.toBool (h : Receiver) : Bool := h.channel

/-- Moving out of a Receiver (defaulted move operations): destination takes
the shared_ptr, source is left null; no Channel member function runs. -/
def Receiver.moveFrom (h : Receiver) : Receiver × Receiver :=
  (⟨h.channel⟩, ⟨false⟩)

/-- A Receiver handle is moved-out when its channel pointer is null. -/
def Receiver.movedOut (h : Receiver) : Prop := h.channel = false

/-- The operations a program can perform against one channel through its
handles. The last three cover handle lifetime events: Sender and Receiver
move operations are the defaulted member-wise moves of the shared_ptr, and
the Sender destructor is the defaulted one releasing its reference; none of
the three calls any Channel<T> member function. -/
inductive Op (α : Type) where
  | send (v : α)
  | receive
  | tryReceive
  | close
  | closedq
  | senderMove
  | senderDestroy
  | receiverMove
deriving DecidableEq

/-- The effect of one operation on the shared channel state. The handle
lifetime events leave the channel state untouched, as in the source, where
the defaulted move and destructor only manipulate the shared_ptr member. -/
def Op.apply {α : Type} (op : Op α) (c : Channel α) : Channel α :=
  match op with
  | Op.send v => (Channel.send v c).2
  | Op.receive => (Channel.receive c).2
  | Op.tryReceive => (Channel.tryReceive c).2
  | Op.close => Channel.close c
  | Op.closedq => (Channel.closedQuery c).2
  | Op.senderMove => c
  | Op.senderDestroy => c
  | Op.receiverMove => c

/-- Run a sequence of operations left to right on the channel state. -/
def applyOps {α : Type} (ops : List (Op α)) (c : Channel α) : Channel α :=
  match ops with
  | [] => c
  | op :: rest => applyOps rest (op.apply c)

/-- One producer performing Channel::send for each value of the list in
order, stopping at the first thrown channel_closed_exception. -/
def sendAll {α : Type} (vs : List α) (c : Channel α) :
    Except ChError (Channel α) :=
  match vs with
  | [] => Except.ok c
  | v :: rest =>
    match Channel.send v c with
    | (Except.ok _, c1) => sendAll rest c1
    | (Except.error _, _) => Except.error ChError.channelClosed

/-- The consumer performing n calls to blocking Channel::receive, recording
the values delivered; a nullopt return or a park ends the recording. -/
def receiveN {α : Type} (n : Nat) (c : Channel α) : List α × Channel α :=
  match n with
  | 0 => ([], c)
  | Nat.succ m =>
    match Channel.receive c with
    | (RecvOutcome.ret (some v), c1) =>
      let p := receiveN m c1
      (v :: p.1, p.2)
    | (RecvOutcome.ret none, c1) => ([], c1)
    | (RecvOutcome.blocked, c1) => ([], c1)

/-- State of Receiver<T>::iterator: the receiver back-pointer (represented
by whether it is non-null) and the lookahead cell current. -/
structure Iter (α : Type) where
  receiver : Bool
  current : Option α
deriving DecidableEq

/-- Receiver<T>::iterator::next: if the receiver pointer is null, return at
once; otherwise loop: when closed() is observed, null the receiver, reset
current and end; else call blocking receive(); a nullopt result retries the
loop; a value is stored into current. The fuel bounds the number of loop
iterations in the embedding; exhausted fuel, like a park of the inner
blocking receive, yields no result. -/
def Iter.next {α : Type} (fuel : Nat) (it : Iter α) (c : Channel α) :
    Option (Iter α × Channel α) :=
  match fuel with
  | 0 => none
  | Nat.succ f =>
    if it.receiver = false then
      some (it, c)
    else if (Channel.closedQuery c).1 then
      some ({ receiver := false, current := none }, c)
    else
      match Channel.receive c with
      | (RecvOutcome.ret (some v), c1) => some ({ it with current := some v }, c1)
      | (RecvOutcome.ret none, c1) => Iter.next f it c1
      | (RecvOutcome.blocked, _) => none

/-- Receiver<T>::iterator constructed from a live receiver (begin): if
closed() already holds, the receiver pointer is nulled and the sequence is
exhausted; otherwise next() runs to fetch the first element. -/
def iterBegin {α : Type} (fuel : Nat) (c : Channel α) :
    Option (Iter α × Channel α) :=
  if (Channel.closedQuery c).1 then
    some ({ receiver := false, current := none }, c)
  else
    Iter.next fuel { receiver := true, current := none } c

/-- Consume up to n elements from an iterator state: while the iterator
differs from end() (receiver non-null), read the element in the lookahead
cell current, then, if more elements are wanted, advance with operator++
(next). Exactly n - 1 advances follow begin for n elements, matching a
consumer that stops reading after the n-th element. -/
def iterTakeAux {α : Type} (fuel n : Nat) (it : Iter α) (c : Channel α) :
    Option (List α) :=
  match n with
  | 0 => some []
  | Nat.succ m =>
    if it.receiver then
      match it.current with
      | some v =>
        match m with
        | 0 => some [v]
        | Nat.succ _ =>
          match Iter.next fuel it c with
          | some (it1, c1) =>
            match iterTakeAux fuel m it1 c1 with
            | some vs => some (v :: vs)
            | none => none
          | none => none
      | none => some []
    else
      some []

/-- Consume up to n elements of a channel through the sequence adapter,
starting from begin. -/
def iterTake {α : Type} (fuel n : Nat) (c : Channel α) : Option (List α) :=
  match iterBegin fuel c with
  | some p => iterTakeAux fuel n p.1 p.2
  | none => none

/-- On an open channel, send succeeds, appends the value at the tail of the
queue, leaves the flag open and leaves need_notify clear (it either was
clear or is cleared on the signalling path). -/
theorem send_open {α : Type} (v : α) (c : Channel α) (h : c.closed = false) :
    Channel.send v c = (Except.ok (), ⟨c.queue ++ [v], false, false⟩) := by
  obtain ⟨q, nn, cl⟩ := c
  cases cl with
  | true => simp at h
  | false => cases nn <;> rfl

/-- Sending a list of values on an open channel succeeds and appends them
in order at the tail, the channel staying open. -/
theorem sendAll_open {α : Type} (vs : List α) :
    ∀ (c : Channel α), c.closed = false →
      ∃ c1, sendAll vs c = Except.ok c1 ∧
        c1.queue = c.queue ++ vs ∧ c1.closed = false := by
  induction vs with
  | nil =>
    intro c h
    exact ⟨c, rfl, by simp, h⟩
  | cons v rest ih =>
    intro c h
    obtain ⟨c1, e1, e2, e3⟩ := ih ⟨c.queue ++ [v], false, false⟩ rfl
    refine ⟨c1, ?_, ?_, e3⟩
    · rw [sendAll, send_open v c h]
      exact e1
    · rw [e2]
      simp

/-- A consumer popping an open channel whose queue holds exactly vs obtains
vs in order over List.length vs blocking receives. -/
theorem receiveN_open {α : Type} (vs : List α) :
    ∀ (c : Channel α), c.closed = false → c.queue = vs →
      (receiveN (List.length vs) c).1 = vs := by
  induction vs with
  | nil =>
    intro c h hq
    rfl
  | cons v rest ih =>
    intro c h hq
    have hr : Channel.receive c = (RecvOutcome.ret (some v), { c with queue := rest }) := by
      simp [Channel.receive, h, hq]
    have h2 := ih { c with queue := rest } h rfl
    simp [receiveN, hr, h2]

/-- Any single operation other than close leaves the closed flag exactly as
it found it. -/
theorem apply_closed_of_ne {α : Type} (op : Op α) (c : Channel α)
    (h : op ≠ Op.close) : (Op.apply op c).closed = c.closed := by
  obtain ⟨q, nn, cl⟩ := c
  cases op <;> cases cl <;> cases nn <;> cases q <;>
    simp_all [Op.apply, Channel.send, Channel.receive, Channel.tryReceive,
      Channel.close, Channel.closedQuery]

/-- Any single operation preserves a set closed flag. -/
theorem apply_closed_mono {α : Type} (op : Op α) (c : Channel α)
    (h : c.closed = true) : (Op.apply op c).closed = true := by
  obtain ⟨q, nn, cl⟩ := c
  cases op <;> cases cl <;> cases nn <;> cases q <;>
    simp_all [Op.apply, Channel.send, Channel.receive, Channel.tryReceive,
      Channel.close, Channel.closedQuery]

/-- A set closed flag survives any sequence of operations. -/
theorem applyOps_closed_mono {α : Type} (ops : List (Op α)) :
    ∀ (c : Channel α), c.closed = true → (applyOps ops c).closed = true := by
  induction ops with
  | nil => intro c h; exact h
  | cons op rest ih => intro c h; exact ih _ (apply_closed_mono op c h)

/-- Claim C1: on a channel whose closed flag is true, blocking receive
returns no value immediately and leaves the state untouched, even when the
queue is non-empty; items still queued are never delivered, any number of
further receives returning no value. -/
theorem receive_after_close (c : Channel Nat) (h : c.closed = true) :
    Channel.receive c = (RecvOutcome.ret none, c) ∧
    ∀ n, receiveN n c = ([], c) := by
  constructor
  · simp [Channel.receive, h]
  · intro n
    cases n with
    | zero => rfl
    | succ m => simp [receiveN, Channel.receive, h]

theorem receive_after_close_witness :
    Channel.receive (⟨[1, 2], false, true⟩ : Channel Nat) =
      (RecvOutcome.ret none, ⟨[1, 2], false, true⟩) ∧
    receiveN 3 (⟨[1, 2], false, true⟩ : Channel Nat) =
      ([], ⟨[1, 2], false, true⟩) :=
  ⟨(receive_after_close ⟨[1, 2], false, true⟩ rfl).1,
   (receive_after_close ⟨[1, 2], false, true⟩ rfl).2 3⟩

/-- Claim C2: the closed flag is monotonic under every sequence of
operations, and close is the only operation that changes it; in particular
the handle lifetime events (moving or destroying a Sender) leave it
untouched. -/
theorem closed_monotone :
    (∀ (ops : List (Op Nat)) (c : Channel Nat), c.closed = true →
      (applyOps ops c).closed = true) ∧
    (∀ (op : Op Nat) (c : Channel Nat), op ≠ Op.close →
      (Op.apply op c).closed = c.closed) :=
  ⟨fun ops c h => applyOps_closed_mono ops c h,
   fun op c h => apply_closed_of_ne op c h⟩

theorem closed_monotone_witness :
    (applyOps [Op.send 7, Op.receive, Op.tryReceive, Op.senderMove,
      Op.senderDestroy, Op.receiverMove, Op.closedq]
      (Channel.close (Channel.init : Channel Nat))).closed = true ∧
    (Op.apply (Op.send 5) (Channel.init : Channel Nat)).closed =
      (Channel.init : Channel Nat).closed :=
  ⟨closed_monotone.1 _ _ (by decide), closed_monotone.2 _ _ (by decide)⟩

/-- Claim C3: sending through a valid Sender on a closed channel fails with
ChannelClosed and returns the channel state exactly as it was; nothing is
enqueued. -/
theorem send_after_close (h : Sender) (v : Nat) (c : Channel Nat)
    (hv : h.channel = true) (hc : c.closed = true) :
    Sender.send h v c = (Except.error ChError.channelClosed, c) := by
  simp [Sender.send, Sender.validate, hv, Channel.send, hc]

theorem send_after_close_witness :
    Sender.send ⟨true⟩ 5 (⟨[9], false, true⟩ : Channel Nat) =
      (Except.error ChError.channelClosed, ⟨[9], false, true⟩) :=
  send_after_close ⟨true⟩ 5 ⟨[9], false, true⟩ rfl rfl

/-- Claim C4: FIFO ordering for one producer: sending v1..vn in order on an
open channel with an empty queue succeeds, and n blocking receives then
deliver exactly v1..vn in that order. -/
theorem fifo_single_producer (vs : List Nat) (c : Channel Nat)
    (h1 : c.closed = false) (h2 : c.queue = []) :
    ∃ c1, sendAll vs c = Except.ok c1 ∧
      (receiveN (List.length vs) c1).1 = vs := by
  obtain ⟨c1, e1, e2, e3⟩ := sendAll_open vs c h1
  refine ⟨c1, e1, receiveN_open vs c1 e3 ?_⟩
  rw [e2, h2]
  simp

theorem fifo_single_producer_witness :
    ∃ c1, sendAll [4, 2, 2, 9] (Channel.init : Channel Nat) = Except.ok c1 ∧
      (receiveN (List.length [4, 2, 2, 9]) c1).1 = [4, 2, 2, 9] :=
  fifo_single_producer [4, 2, 2, 9] Channel.init rfl rfl

/-- Claim C5: every public operation on a moved-out Sender or Receiver
handle fails with HandleInvalidated and returns the channel state exactly
as it was, the validation error short-circuiting before the shared state is
reached. -/
theorem use_after_move (hs : Sender) (hr : Receiver) (v : Nat)
    (c : Channel Nat) (h1 : hs.channel = false) (h2 : hr.channel = false) :
    Sender.send hs v c = (Except.error ChError.handleInvalidated, c) ∧
    Sender.close hs c = (Except.error ChError.handleInvalidated, c) ∧
    Sender.closed hs c = (Except.error ChError.handleInvalidated, c) ∧
    Receiver.receive hr c = (Except.error ChError.handleInvalidated, c) ∧
    Receiver.tryReceive hr c = (Except.error ChError.handleInvalidated, c) ∧
    Receiver.closed hr c = (Except.error ChError.handleInvalidated, c) := by
  simp [Sender.send, Sender.close, Sender.closed, Sender.validate, h1,
    Receiver.receive, Receiver.tryReceive, Receiver.closed,
    Receiver.validate, h2]

theorem use_after_move_witness :
    Sender.send (Sender.moveFrom ⟨true⟩).2 3 (⟨[8], false, false⟩ : Channel Nat) =
      (Except.error ChError.handleInvalidated, ⟨[8], false, false⟩) ∧
    Sender.close (Sender.moveFrom ⟨true⟩).2 (⟨[8], false, false⟩ : Channel Nat) =
      (Except.error ChError.handleInvalidated, ⟨[8], false, false⟩) ∧
    Sender.closed (Sender.moveFrom ⟨true⟩).2 (⟨[8], false, false⟩ : Channel Nat) =
      (Except.error ChError.handleInvalidated, ⟨[8], false, false⟩) ∧
    Receiver.receive (Receiver.moveFrom ⟨true⟩).2 (⟨[8], false, false⟩ : Channel Nat) =
      (Except.error ChError.handleInvalidated, ⟨[8], false, false⟩) ∧
    Receiver.tryReceive (Receiver.moveFrom ⟨true⟩).2 (⟨[8], false, false⟩ : Channel Nat) =
      (Except.error ChError.handleInvalidated, ⟨[8], false, false⟩) ∧
    Receiver.closed (Receiver.moveFrom ⟨true⟩).2 (⟨[8], false, false⟩ : Channel Nat) =
      (Except.error ChError.handleInvalidated, ⟨[8], false, false⟩) :=
  use_after_move (Sender.moveFrom ⟨true⟩).2 (Receiver.moveFrom ⟨true⟩).2 3
    ⟨[8], false, false⟩ rfl rfl

/-- Claim C6: try_receive, in the branch where the lock is acquired,
returns no value when the channel is closed or the queue is empty (leaving
the state untouched), and otherwise pops the head of the queue and returns
it. -/
theorem try_receive_acquired (c : Channel Nat) :
    (c.closed = true ∨ c.queue = [] → Channel.tryReceive c = (none, c)) ∧
    (∀ v rest, c.closed = false → c.queue = v :: rest →
      Channel.tryReceive c = (some v, { c with queue := rest })) := by
  constructor
  · intro h
    rcases h with h | h
    · simp [Channel.tryReceive, h]
    · simp [Channel.tryReceive, h]
  · intro v rest h1 h2
    simp [Channel.tryReceive, h1, h2]

theorem try_receive_acquired_witness :
    Channel.tryReceive (⟨[], false, false⟩ : Channel Nat) =
      (none, ⟨[], false, false⟩) ∧
    Channel.tryReceive (⟨[5, 6], false, false⟩ : Channel Nat) =
      (some 5, ⟨[6], false, false⟩) :=
  ⟨(try_receive_acquired ⟨[], false, false⟩).1 (Or.inr rfl),
   (try_receive_acquired ⟨[5, 6], false, false⟩).2 5 [6] rfl rfl⟩

/-- Claim C7: close is idempotent: closing twice produces exactly the same
state as closing once, and the closed query answers true after either. -/
theorem close_idempotent (c : Channel Nat) :
    Channel.close (Channel.close c) = Channel.close c ∧
    (Channel.closedQuery (Channel.close c)).1 = true := by
  obtain ⟨q, nn, cl⟩ := c
  cases nn <;> simp [Channel.close, Channel.closedQuery]

/-- Claim C8: sequence-adapter drain: on a fresh channel, sending 0..9 in
order and then consuming ten elements through begin and advance yields
exactly 0..9; starting or advancing the adapter on a closed channel ends
the sequence at once. -/
theorem sequence_adapter_drain :
    sendAll [0, 1, 2, 3, 4, 5, 6, 7, 8, 9] (Channel.init : Channel Nat) =
      Except.ok ⟨[0, 1, 2, 3, 4, 5, 6, 7, 8, 9], false, false⟩ ∧
    iterTake 20 10 (⟨[0, 1, 2, 3, 4, 5, 6, 7, 8, 9], false, false⟩ : Channel Nat) =
      some [0, 1, 2, 3, 4, 5, 6, 7, 8, 9] ∧
    iterBegin 20 (Channel.close (Channel.init : Channel Nat)) =
      some (⟨false, none⟩, Channel.close Channel.init) ∧
    Iter.next 5 (⟨true, some 3⟩ : Iter Nat) (⟨[7], false, true⟩ : Channel Nat) =
      some (⟨false, none⟩, ⟨[7], false, true⟩) :=
  ⟨rfl, by decide, by decide, by decide⟩

/-- Claim C9: the closed-state query is pure: Channel::closed, and the
closed query through a valid Sender or Receiver handle, return the current
flag and leave the queue, the closed flag and the waiting flag exactly
unchanged. -/
theorem closed_query_pure (c : Channel Nat) (hs : Sender) (hr : Receiver)
    (h1 : hs.channel = true) (h2 : hr.channel = true) :
    Channel.closedQuery c = (c.closed, c) ∧
    Sender.closed hs c = (Except.ok c.closed, c) ∧
    Receiver.closed hr c = (Except.ok c.closed, c) := by
  simp [Channel.closedQuery, Sender.closed, Sender.validate, h1,
    Receiver.closed, Receiver.validate, h2]

theorem closed_query_pure_witness :
    Channel.closedQuery (⟨[3], true, false⟩ : Channel Nat) =
      (false, ⟨[3], true, false⟩) ∧
    Sender.closed ⟨true⟩ (⟨[3], true, false⟩ : Channel Nat) =
      (Except.ok false, ⟨[3], true, false⟩) ∧
    Receiver.closed ⟨true⟩ (⟨[3], true, false⟩ : Channel Nat) =
      (Except.ok false, ⟨[3], true, false⟩) :=
  closed_query_pure ⟨[3], true, false⟩ ⟨true⟩ ⟨true⟩ rfl rfl

/-- Claim C10: both handle types expose a total boolean conversion that is
true exactly when the handle has not been moved out; moving preserves it on
the destination and makes it false on the source, with no validation error
possible. -/
theorem handle_bool_validity (hs : Sender) (hr : Receiver) :
    (hs.toBool = true ↔ ¬ hs.movedOut) ∧
    (Sender.moveFrom hs).1.toBool = hs.toBool ∧
    (Sender.moveFrom hs).2.toBool = false ∧
    (hr.toBool = true ↔ ¬ hr.movedOut) ∧
    (Receiver.moveFrom hr).1.toBool = hr.toBool ∧
    (Receiver.moveFrom hr).2.toBool = false := by
  obtain ⟨b1⟩ := hs
  obtain ⟨b2⟩ := hr
  cases b1 <;> cases b2 <;>
    simp [Sender.toBool, Sender.movedOut, Sender.moveFrom,
      Receiver.toBool, Receiver.movedOut, Receiver.moveFrom]

end Mpsc
